import Mathlib

/-!
Verification development for the bicicletapp repository (Go, bicycle repair
shop management).  The definitions below are a shallow embedding of the
slice of the source that the specification's claims speak about: the domain
constants (`internal/domain`), the sqlite repositories
(`internal/repository/sqlite`), the auth middleware and token issuer
(`package server`, middleware file), and the HTTP handlers for login,
ticket creation and ticket status update (`package server`, handler files).

Modelling conventions:
  * Go `int64` becomes `Int`; Go `string` stays `String`; `time.Time`
    becomes an abstract instant `Nat`.
  * The sqlite store becomes an explicit record of row lists (`DBState`);
    `AUTOINCREMENT` row ids become an explicit `nextTicketID` counter.
    Database I/O errors are not injected: every statement executes.
  * HTTP responses become an inductive datatype with one constructor for
    each syntactically distinct response the modelled handlers can write.
  * External cryptographic libraries (bcrypt, HMAC-SHA256 inside the JWT
    library) are idealized as collision-free: see the doc comments on
    `bcryptKDF` and `hmacSign`.
-/

namespace Bicicletapp

/-! ### Domain constants (internal/domain, status and role string constants) -/

def TicketStatusReceived : String := "received"

def TicketStatusDiagnosing : String := "diagnosing"

def TicketStatusInProgress : String := "in_progress"

def TicketStatusWaitingParts : String := "waiting_parts"

def TicketStatusReady : String := "ready"

def TicketStatusDelivered : String := "delivered"

/-- List of the six ticket status tokens of the closed enumeration (§4.3). -/
def ticketStatusTokens : List String :=
  [TicketStatusReceived, TicketStatusDiagnosing, TicketStatusInProgress,
   TicketStatusWaitingParts, TicketStatusReady, TicketStatusDelivered]

def BookingStatusPending : String := "pending"

def BookingStatusConfirmed : String := "confirmed"

def RoleCustomer : String := "customer"

def RoleTechnician : String := "technician"

def RoleAdmin : String := "admin"

/-! ### Domain entities (internal/domain) -/

/-- User row (domain.User).  `passwordHash` is the bcrypt hash string. -/
structure User where
  id : Int
  email : String
  passwordHash : String
  name : String
  phone : String
  role : String
  createdAt : Nat
deriving DecidableEq, Repr

/-- Booking row (domain.Booking); joined pointer fields are omitted. -/
structure Booking where
  id : Int
  customerID : Int
  bicycleID : Int
  serviceID : Int
  scheduledAt : Nat
  status : String
  notes : String
  createdAt : Nat
deriving DecidableEq, Repr

/-- Ticket row (domain.Ticket); QR bytes are kept as a list of byte values,
joined pointer fields are omitted. -/
structure Ticket where
  id : Int
  bookingID : Int
  technicianID : Int
  trackingCode : String
  qrCode : List Nat
  status : String
  notes : String
  createdAt : Nat
  updatedAt : Nat
deriving DecidableEq, Repr

/-- Stored ticket_status_history row.  `changedBy` is `none` when the SQL
column is NULL (TicketRepo.CreateStatusHistory writes NULL whenever the
in-memory ChangedBy field is the zero value). -/
structure TicketStatusHistory where
  ticketID : Int
  status : String
  changedBy : Option Int
  notes : String
  createdAt : Nat
deriving DecidableEq, Repr

/-- JWT claims struct of the middleware file: user fields plus the
registered claims that generateToken populates (ExpiresAt, IssuedAt,
Issuer). -/
structure Claims where
  userID : Int
  email : String
  role : String
  expiresAt : Nat
  issuedAt : Nat
  issuer : String
deriving DecidableEq, Repr

/-- Relevant slice of the configuration: JWT secret and expiry, business
name (used as token issuer), debug flag. -/
structure Config where
  jwtSecret : String
  jwtExpirationHours : Nat
  businessName : String
  debug : Bool
deriving DecidableEq, Repr

/-- The sqlite database restricted to the tables this slice touches.
`nextTicketID` models the tickets table AUTOINCREMENT counter. -/
structure DBState where
  users : List User
  bookings : List Booking
  tickets : List Ticket
  history : List TicketStatusHistory
  nextTicketID : Int
deriving DecidableEq, Repr

/-! ### Credential store (bcrypt, external library)

The Go source calls `bcrypt.GenerateFromPassword` and
`bcrypt.CompareHashAndPassword` from golang.org/x/crypto; that library is
not part of this repository.  Modelled from the spec: "hash(password) uses
a slow, salted, adaptive one-way hash" and "verify(password, hash_string)
returns false (never throws) on malformed hash or mismatch".  The key
derivation is idealized as collision-free (an injective function of the
password), the salt is an explicit input standing for the entropy source,
and a hash string is the standard `prefix ++ salt ++ separator ++ digest`
shape with a parser that rejects malformed strings. -/

def bcryptMagic : List Char := ['$', '2', 'a', '$', '1', '0', '$']

/-- Idealized bcrypt key derivation: collision-free in the password. -/
def bcryptKDF (password : String) : List Char := password.data

/-- Strip an expected prefix from a character list, or fail. -/
def stripMagic : List Char → List Char → Option (List Char)
  | [], rest => some rest
  | _ :: _, [] => none
  | c :: cs, d :: ds => if c = d then stripMagic cs ds else none

/-- Split a character list at its first `$`, returning the parts before
and after it; fails when no `$` occurs. -/
def splitAtDollar : List Char → Option (List Char × List Char)
  | [] => none
  | c :: cs =>
    if c = '$' then some ([], cs)
    else (splitAtDollar cs).map (fun p => (c :: p.1, p.2))

/-- Parse a bcrypt hash string into (salt, digest); `none` on a malformed
string (wrong magic prefix or missing salt separator). -/
def bcryptParse (hash : String) : Option (List Char × List Char) :=
  match stripMagic bcryptMagic hash.data with
  | none => none
  | some rest => splitAtDollar rest

/-- hashPassword (handlers file): bcrypt.GenerateFromPassword with the
default cost; the randomly drawn salt is an explicit input here. -/
def hashPassword (salt : String) (password : String) : String :=
  ⟨bcryptMagic ++ salt.data ++ '$' :: bcryptKDF password⟩

/-- checkPasswordHash (handlers file): bcrypt.CompareHashAndPassword
returning whether the error is nil.  Parse failure or digest mismatch both
yield false; nothing throws. -/
def checkPasswordHash (password : String) (hash : String) : Bool :=
  match bcryptParse hash with
  | none => false
  | some (_salt, digest) => bcryptKDF password = digest

/-! ### Repositories (internal/repository/sqlite) -/

/-- UserRepo.GetByEmail: `SELECT ... FROM users WHERE email = ?`, returning
the not-found sentinel `none` on a miss. -/
def UserRepo.GetByEmail (s : DBState) (email : String) : Option User :=
  s.users.find? (fun u => u.email == email)

/-- TicketRepo.GetByID: `SELECT ... FROM tickets WHERE t.id = ?`, returning
`none` on `sql.ErrNoRows` (the joined technician name/email columns are
not relevant to any claim and are omitted). -/
def TicketRepo.GetByID (s : DBState) (id : Int) : Option Ticket :=
  s.tickets.find? (fun t => t.id == id)

/-- BookingRepo.GetByID (db.go): `SELECT ... FROM bookings WHERE id = ?`. -/
def BookingRepo.GetByID (s : DBState) (id : Int) : Option Booking :=
  s.bookings.find? (fun b => b.id == id)

/-- TicketRepo.CreateStatusHistory: inserts one ticket_status_history row;
the Go code binds NULL for changed_by when the ChangedBy field is the zero
value, and `time.Now()` for created_at (the instant `now` here). -/
def TicketRepo.CreateStatusHistory (s : DBState) (ticketID : Int)
    (status : String) (changedBy : Int) (notes : String) (now : Nat) : DBState :=
  let row : TicketStatusHistory :=
    { ticketID := ticketID, status := status,
      changedBy := if changedBy != 0 then some changedBy else none,
      notes := notes, createdAt := now }
  { s with history := s.history ++ [row] }

/-- TicketRepo.UpdateStatus: `UPDATE tickets SET status = ?, updated_at = ?
WHERE id = ?`, then CreateStatusHistory with the same status, acting user
and notes.  (In the source a history-insert failure is logged and
swallowed; the model has no injected I/O failures, so the insert always
happens.) -/
def TicketRepo.UpdateStatus (s : DBState) (id : Int) (status : String)
    (changedBy : Int) (notes : String) (now : Nat) : DBState :=
  let s1 := { s with
    tickets := s.tickets.map (fun t =>
      if t.id == id then { t with status := status, updatedAt := now } else t) }
  TicketRepo.CreateStatusHistory s1 id status changedBy notes now

/-- TicketRepo.Create: inserts a tickets row (fresh AUTOINCREMENT id, both
timestamps set to now), then inserts the initial history row with notes
"Ticket creado" and ChangedBy equal to the ticket's TechnicianID.  Returns
the assigned id alongside the new state (the Go code writes it back into
`ticket.ID`). -/
def TicketRepo.Create (s : DBState) (ticket : Ticket) (now : Nat) : Int × DBState :=
  let id := s.nextTicketID
  let row := { ticket with id := id, createdAt := now, updatedAt := now }
  let s1 := { s with tickets := s.tickets ++ [row], nextTicketID := id + 1 }
  (id, TicketRepo.CreateStatusHistory s1 id ticket.status ticket.technicianID
        "Ticket creado" now)

/-- BookingRepo.UpdateStatus (db.go): `UPDATE bookings SET status = ?
WHERE id = ?`. -/
def BookingRepo.UpdateStatus (s : DBState) (id : Int) (status : String) : DBState :=
  { s with bookings := s.bookings.map (fun b =>
      if b.id == id then { b with status := status } else b) }

/-! ### Session / claims issuer (middleware file + JWT library) -/

/-- HMAC-SHA256 signature over the encoded claims, idealized as
unforgeable and collision-free: the tag determines (and is determined by)
the signing secret and the signed claims.  The real MAC lives in the
external JWT library, not in this repository. -/
def hmacSign (secret : String) (c : Claims) : String × Claims := (secret, c)

/-- Signed token: the claims payload together with its signature.  The
wire encoding (base64 segments) is irrelevant to the claims and elided. -/
structure Token where
  claims : Claims
  sig : String × Claims
deriving DecidableEq, Repr

/-- generateToken: builds the claims from the user (id, email, role) with
ExpiresAt = now + ExpirationHours hours, IssuedAt = now, Issuer = business
name, and signs them with the configured secret (HS256). -/
def generateToken (cfg : Config) (user : User) (now : Nat) : Token :=
  let c : Claims :=
    { userID := user.id, email := user.email, role := user.role,
      expiresAt := now + cfg.jwtExpirationHours * 3600,
      issuedAt := now, issuer := cfg.businessName }
  { claims := c, sig := hmacSign cfg.jwtSecret c }

/-- jwt.ParseWithClaims with the HS256 key function: the token is valid
when its signature verifies under the secret and the ExpiresAt claim lies
strictly in the future; `none` models a parse/validation error or an
invalid token. -/
def parseWithClaims (secret : String) (tok : Token) (now : Nat) : Option Claims :=
  if tok.sig = hmacSign secret tok.claims ∧ now < tok.claims.expiresAt then
    some tok.claims
  else none

/-- Outcome of the auth middleware: either a redirect to /login (with the
auth cookie additionally cleared when an invalid token was presented), or
the request proceeds with the recovered claims in the context. -/
inductive AuthOutcome where
  | redirectLogin (cookieCleared : Bool)
  | authenticated (claims : Claims)
deriving DecidableEq, Repr

/-- authMiddleware: reads the token from the auth_token cookie, falling
back to an `Authorization` header of shape `scheme token` where the scheme
must be `Bearer`; missing token redirects to /login, an invalid or expired
token clears the cookie and redirects, a valid token proceeds with its
claims. -/
def authMiddleware (secret : String) (cookie : Option Token)
    (authHeader : Option (String × Token)) (now : Nat) : AuthOutcome :=
  let tok? : Option Token :=
    match cookie with
    | some t => some t
    | none =>
      match authHeader with
      | none => none
      | some (scheme, t) => if scheme == "Bearer" then some t else none
  match tok? with
  | none => .redirectLogin false
  | some t =>
    match parseWithClaims secret t now with
    | none => .redirectLogin true
    | some c => .authenticated c

/-! ### HTTP responses and role middleware (package server) -/

/-- Flash message rendered into a page (type and message). -/
structure Flash where
  kind : String
  message : String
deriving DecidableEq, Repr

/-- The syntactically distinct responses written by the modelled handlers:
`notFound` is http.NotFound; `unauthorized` / `forbidden` are http.Error
with 401 / 403; `redirectTicket id err` is the 303 redirect to
/tickets/id, with `err` the optional `?error=` query parameter;
`renderLogin flash` renders the login page with an optional flash;
`loginRedirect tok maxAge target` sets the auth cookie to the signed token
(Max-Age = maxAge seconds) and 303-redirects to `target`. -/
inductive Response where
  | notFound
  | unauthorized
  | forbidden (msg : String)
  | redirectTicket (id : Int) (err : Option String)
  | renderLogin (flash : Option Flash)
  | loginRedirect (token : Token) (maxAge : Nat) (target : String)
deriving DecidableEq, Repr

/-- roleMiddleware: with no claims in context answer 401; otherwise walk
the allowed-roles list looking for the claims' role, grant admin
unconditionally, and answer 403 Forbidden without invoking the inner
handler when not allowed. -/
def roleMiddleware (allowedRoles : List String) (claims : Option Claims)
    (handler : DBState → Response × DBState) (s : DBState) : Response × DBState :=
  match claims with
  | none => (.unauthorized, s)
  | some c =>
    let allowed := allowedRoles.any (fun role => c.role == role)
    let allowed := if c.role == RoleAdmin then true else allowed
    if allowed then handler s else (.forbidden "Forbidden", s)

/-! ### Ticket status update handler (handleUpdateTicketStatus) -/

/-- Technician transition validity, translated from the Go switch on the
ticket's current status in handleUpdateTicketStatus, including the default
branch (unknown current status: only same-status allowed) and the
post-switch `if ticket.Status == status` same-status allowance. -/
def statusUpdateValid (cur target : String) : Bool :=
  let valid :=
    if cur == TicketStatusReceived then target == TicketStatusDiagnosing
    else if cur == TicketStatusDiagnosing then
      target == TicketStatusInProgress || target == TicketStatusWaitingParts ||
        target == TicketStatusReady
    else if cur == TicketStatusInProgress then
      target == TicketStatusWaitingParts || target == TicketStatusReady
    else if cur == TicketStatusWaitingParts then
      target == TicketStatusInProgress || target == TicketStatusReady
    else if cur == TicketStatusReady then target == TicketStatusDelivered
    else if cur == TicketStatusDelivered then false
    else cur == target
  valid || cur == target

/-- handleUpdateTicketStatus: fetch the ticket (404 on a miss); a
technician not assigned to the ticket gets 403; a technician whose
requested transition is invalid gets the invalid_transition redirect with
no mutation; otherwise TicketRepo.UpdateStatus runs with the acting user's
id and the request succeeds with a plain redirect to the ticket page.  (An
UpdateStatus persistence failure would redirect with update_failed; the
model injects no I/O failures.) -/
def handleUpdateTicketStatus (claims : Claims) (id : Int) (status notes : String)
    (now : Nat) (s : DBState) : Response × DBState :=
  match TicketRepo.GetByID s id with
  | none => (.notFound, s)
  | some ticket =>
    if claims.role == RoleTechnician && ticket.technicianID != claims.userID then
      (.forbidden "Forbidden: You are not assigned to this ticket", s)
    else if claims.role == RoleTechnician && !statusUpdateValid ticket.status status then
      (.redirectTicket id (some "invalid_transition"), s)
    else
      (.redirectTicket id none, TicketRepo.UpdateStatus s id status claims.userID notes now)

/-- The /tickets/id/status route as wired in routes.go: the role gate for
technician and admin in front of handleUpdateTicketStatus (the auth gate
has already placed `claims` in the context). -/
def statusUpdateEndpoint (claims : Claims) (id : Int) (status notes : String)
    (now : Nat) (s : DBState) : Response × DBState :=
  roleMiddleware [RoleTechnician, RoleAdmin] (some claims)
    (handleUpdateTicketStatus claims id status notes now) s

/-! ### Ticket creation from a booking (handleCreateTicket) -/

/-- handleCreateTicket: fetch the booking (404 on a miss), build a ticket
assigned to the acting user with the freshly generated tracking code and
QR image (both modelled as inputs, standing for the entropy source and the
QR encoder), status `received`, create it through TicketRepo.Create, then
advance the booking's status to confirmed via BookingRepo.UpdateStatus,
and redirect to the new ticket's page. -/
def handleCreateTicket (claims : Claims) (bookingID : Int)
    (trackingCode : String) (qrPNG : List Nat) (now : Nat) (s : DBState) :
    Response × DBState :=
  match BookingRepo.GetByID s bookingID with
  | none => (.notFound, s)
  | some _ =>
    let ticket : Ticket :=
      { id := 0, bookingID := bookingID, technicianID := claims.userID,
        trackingCode := trackingCode, qrCode := qrPNG,
        status := TicketStatusReceived, notes := "", createdAt := 0, updatedAt := 0 }
    let res := TicketRepo.Create s ticket now
    let s2 := BookingRepo.UpdateStatus res.2 bookingID BookingStatusConfirmed
    (.redirectTicket res.1 none, s2)

/-! ### Login (handleLogin) -/

/-- The invalid-credentials login page: the same response object is
rendered both when the email is unknown and when the password mismatches. -/
def invalidCredentialsPage : Response :=
  .renderLogin (some { kind := "error", message := "Credenciales inválidas" })

/-- handleLogin: look the user up by email; on a miss or a failed password
check render the generic invalid-credentials login page; on success mint a
token, set the auth cookie with Max-Age = ExpirationHours * 3600 and
redirect by role (admin to /admin, technician to /workshop, default
/dashboard). -/
def handleLogin (cfg : Config) (email password : String) (now : Nat)
    (s : DBState) : Response × DBState :=
  match UserRepo.GetByEmail s email with
  | none => (invalidCredentialsPage, s)
  | some user =>
    if !checkPasswordHash password user.passwordHash then
      (invalidCredentialsPage, s)
    else
      let token := generateToken cfg user now
      let maxAge := cfg.jwtExpirationHours * 3600
      let target :=
        if user.role == "admin" then "/admin"
        else if user.role == "technician" then "/workshop"
        else "/dashboard"
      (.loginRedirect token maxAge target, s)

/-! ### Spec-side definitions (for refinement comparison)

`specTransitionAllowed` is written from the words of the §4.3 transition
table of the specification, to be compared against the code-derived
`statusUpdateValid`. -/

/-- Transition table of §4.3 of the specification, verbatim: received to
diagnosing; diagnosing to in_progress, waiting_parts or ready; in_progress
to waiting_parts or ready; waiting_parts to in_progress or ready; ready to
delivered; delivered to nothing. -/
def specTransitionAllowed (cur target : String) : Bool :=
  (cur == "received" && target == "diagnosing") ||
  (cur == "diagnosing" &&
    (target == "in_progress" || target == "waiting_parts" || target == "ready")) ||
  (cur == "in_progress" && (target == "waiting_parts" || target == "ready")) ||
  (cur == "waiting_parts" && (target == "in_progress" || target == "ready")) ||
  (cur == "ready" && target == "delivered")

/-! ### Sample data used by the concrete witnesses -/

/-- Sample ticket #42, assigned to technician 7, currently diagnosing. -/
def sampleTicket : Ticket :=
  { id := 42, bookingID := 1, technicianID := 7, trackingCode := "TRK123",
    qrCode := [1, 2], status := "diagnosing", notes := "", createdAt := 0, updatedAt := 0 }

/-- Sample pending booking #1 of customer 3. -/
def sampleBooking : Booking :=
  { id := 1, customerID := 3, bicycleID := 4, serviceID := 5, scheduledAt := 10,
    status := "pending", notes := "", createdAt := 0 }

/-- Sample registered user (customer 3) with a bcrypt-hashed password. -/
def sampleUser : User :=
  { id := 3, email := "ana@example.com", passwordHash := hashPassword "s4lt" "secret",
    name := "Ana", phone := "", role := "customer", createdAt := 0 }

/-- Sample database holding the sample user, booking and ticket. -/
def sampleDB : DBState :=
  { users := [sampleUser], bookings := [sampleBooking], tickets := [sampleTicket],
    history := [], nextTicketID := 43 }

/-- Claims of technician 7 (the assignee of the sample ticket). -/
def techClaims : Claims :=
  { userID := 7, email := "tech@example.com", role := "technician",
    expiresAt := 100, issuedAt := 0, issuer := "shop" }

/-- Claims of technician 8 (not assigned to the sample ticket). -/
def otherTechClaims : Claims :=
  { userID := 8, email := "tech2@example.com", role := "technician",
    expiresAt := 100, issuedAt := 0, issuer := "shop" }

/-- Claims of an admin user. -/
def adminClaims : Claims :=
  { userID := 1, email := "admin@example.com", role := "admin",
    expiresAt := 100, issuedAt := 0, issuer := "shop" }

/-- Claims of a customer user. -/
def customerClaims : Claims :=
  { userID := 3, email := "ana@example.com", role := "customer",
    expiresAt := 100, issuedAt := 0, issuer := "shop" }

/-- A handler that ignores the request, used to observe the role gate. -/
def probeHandler : DBState → Response × DBState := fun s => (.notFound, s)

/-! ### Helper lemmas -/

/-- The Go transition switch in handleUpdateTicketStatus computes exactly
the §4.3 table of the specification extended with the same-status
allowance. -/
theorem statusUpdateValid_eq_spec (cur target : String) :
    statusUpdateValid cur target =
      (specTransitionAllowed cur target || cur == target) := by
  unfold statusUpdateValid specTransitionAllowed
  unfold TicketStatusReceived TicketStatusDiagnosing TicketStatusInProgress
    TicketStatusWaitingParts TicketStatusReady TicketStatusDelivered
  cases h1 : cur == "received" <;>
  cases h2 : cur == "diagnosing" <;>
  cases h3 : cur == "in_progress" <;>
  cases h4 : cur == "waiting_parts" <;>
  cases h5 : cur == "ready" <;>
  cases h6 : cur == "delivered" <;>
  simp_all

/-- The role gate in front of handleUpdateTicketStatus lets exactly the
technician and admin roles through. -/
theorem statusUpdateEndpoint_unfold (claims : Claims) (id : Int)
    (status notes : String) (now : Nat) (s : DBState) :
    statusUpdateEndpoint claims id status notes now s =
      if claims.role == RoleTechnician || claims.role == RoleAdmin then
        handleUpdateTicketStatus claims id status notes now s
      else (.forbidden "Forbidden", s) := by
  unfold statusUpdateEndpoint roleMiddleware
  cases ht : claims.role == RoleTechnician <;>
  cases ha : claims.role == RoleAdmin <;>
  simp [ht, ha]

/-! ### Claim theorems -/

/-- C1: a status-update request on an existing ticket by an authenticated
actor succeeds (plain redirect to the ticket page) if and only if the
actor is an admin, or the actor is a technician assigned to the ticket and
the (current, requested) pair is in the §4.3 table or the requested status
equals the current one; and an assigned technician's request outside the
table (and not same-status) is answered with the invalid_transition
redirect with the whole store — in particular the ticket's status —
unchanged. -/
theorem statusUpdate_success_iff (claims : Claims) (id : Int)
    (status notes : String) (now : Nat) (s : DBState) (tk : Ticket)
    (hfound : TicketRepo.GetByID s id = some tk) :
    ((statusUpdateEndpoint claims id status notes now s).1 =
        Response.redirectTicket id none ↔
      (claims.role = RoleAdmin ∨
        (claims.role = RoleTechnician ∧ tk.technicianID = claims.userID ∧
          (specTransitionAllowed tk.status status = true ∨ status = tk.status)))) ∧
    (claims.role = RoleTechnician → tk.technicianID = claims.userID →
      ¬(specTransitionAllowed tk.status status = true ∨ status = tk.status) →
      statusUpdateEndpoint claims id status notes now s =
        (Response.redirectTicket id (some "invalid_transition"), s)) := by
  rw [statusUpdateEndpoint_unfold]
  by_cases hadmin : claims.role = RoleAdmin
  · have hnt : claims.role ≠ RoleTechnician := by
      rw [hadmin]; decide
    refine ⟨?_, fun htech => absurd (htech ▸ hadmin) (by decide)⟩
    simp [handleUpdateTicketStatus, hfound, hadmin, hnt, RoleAdmin, RoleTechnician]
  · by_cases htech : claims.role = RoleTechnician
    · by_cases hass : tk.technicianID = claims.userID
      · constructor
        · simp only [handleUpdateTicketStatus, hfound, htech, hass,
            statusUpdateValid_eq_spec, RoleTechnician, RoleAdmin]
          by_cases hvalid :
              specTransitionAllowed tk.status status = true ∨ status = tk.status
          · have hb : (specTransitionAllowed tk.status status ||
                tk.status == status) = true := by
              rcases hvalid with h | h
              · simp [h]
              · simp [h]
            simp [hb, htech, hass, hvalid]
          · have hb : (specTransitionAllowed tk.status status ||
                tk.status == status) = false := by
              push_neg at hvalid
              simp [hvalid.1, beq_iff_eq]
              exact fun hc => hvalid.2 hc.symm
            simp [hb, hvalid, hadmin, htech, hass]
        · intro _ _ hvalid
          have hb : (specTransitionAllowed tk.status status ||
              tk.status == status) = false := by
            push_neg at hvalid
            simp [hvalid.1, beq_iff_eq]
            exact fun hc => hvalid.2 hc.symm
          simp [handleUpdateTicketStatus, hfound, htech, hass,
            statusUpdateValid_eq_spec, hb, RoleTechnician, RoleAdmin]
      · refine ⟨?_, fun _ hass2 => absurd hass2 hass⟩
        simp [handleUpdateTicketStatus, hfound, htech, hass, hadmin,
          RoleTechnician, RoleAdmin]
    · refine ⟨?_, fun h => absurd h htech⟩
      have ht : (claims.role == RoleTechnician) = false := by
        simp [beq_iff_eq, htech]
      have ha : (claims.role == RoleAdmin) = false := by
        simp [beq_iff_eq, hadmin]
      simp [ht, ha, htech, hadmin]

/-- Witness for C1: technician 7, assigned to sample ticket #42 currently
diagnosing, moves it to ready — a table transition — and succeeds. -/
theorem statusUpdate_success_iff_witness :
    (statusUpdateEndpoint techClaims 42 "ready" "" 9 sampleDB).1 =
      Response.redirectTicket 42 none :=
  ((statusUpdate_success_iff techClaims 42 "ready" "" 9 sampleDB sampleTicket
      (by decide)).1).mpr (Or.inr ⟨rfl, by decide, Or.inl (by decide)⟩)

/-- C2: every successful status change through the status-update endpoint
(by an acting user with a nonzero id) appends exactly one history row,
carrying the new status and the acting user's id. -/
theorem statusUpdate_appends_one_history_row (claims : Claims) (id : Int)
    (status notes : String) (now : Nat) (s : DBState) (tk : Ticket)
    (hfound : TicketRepo.GetByID s id = some tk)
    (huid : claims.userID ≠ 0)
    (hsucc : (statusUpdateEndpoint claims id status notes now s).1 =
      Response.redirectTicket id none) :
    (statusUpdateEndpoint claims id status notes now s).2.history =
      s.history ++ [{ ticketID := id, status := status,
                      changedBy := some claims.userID,
                      notes := notes, createdAt := now }] := by
  rw [statusUpdateEndpoint_unfold] at hsucc ⊢
  cases hgate : (claims.role == RoleTechnician || claims.role == RoleAdmin) with
  | false => simp [hgate] at hsucc
  | true =>
    simp only [hgate, if_true] at hsucc ⊢
    simp only [handleUpdateTicketStatus, hfound] at hsucc ⊢
    cases hforb : (claims.role == RoleTechnician && tk.technicianID != claims.userID) with
    | true => simp [hforb] at hsucc
    | false =>
      cases hinv : (claims.role == RoleTechnician && !statusUpdateValid tk.status status) with
      | true => simp [hforb, hinv] at hsucc
      | false =>
        simp only [hforb, hinv, Bool.false_eq_true, if_false]
        simp [TicketRepo.UpdateStatus, TicketRepo.CreateStatusHistory, huid]

/-- C5: a technician acting on a ticket not assigned to them always gets
the 403 authorization response (a different signal than the
invalid_transition redirect), and the store — ticket rows and history —
is unchanged. -/
theorem technicianMismatch_forbidden (claims : Claims) (id : Int)
    (status notes : String) (now : Nat) (s : DBState) (tk : Ticket)
    (hfound : TicketRepo.GetByID s id = some tk)
    (hrole : claims.role = RoleTechnician)
    (hmis : tk.technicianID ≠ claims.userID) :
    statusUpdateEndpoint claims id status notes now s =
      (Response.forbidden "Forbidden: You are not assigned to this ticket", s) := by
  rw [statusUpdateEndpoint_unfold]
  have hgate : (claims.role == RoleTechnician || claims.role == RoleAdmin) = true := by
    simp [hrole]
  simp [hgate, handleUpdateTicketStatus, hfound, hrole, hmis]

/-- Witness for C2: the successful diagnosing-to-ready move by technician 7
on ticket #42 appends exactly the one expected history row. -/
theorem statusUpdate_appends_one_history_row_witness :
    (statusUpdateEndpoint techClaims 42 "ready" "all good" 9 sampleDB).2.history =
      sampleDB.history ++ [{ ticketID := 42, status := "ready", changedBy := some 7,
                             notes := "all good", createdAt := 9 }] :=
  statusUpdate_appends_one_history_row techClaims 42 "ready" "all good" 9 sampleDB
    sampleTicket (by decide) (by decide) (by decide)

/-- Witness for C5: technician 8 touching ticket #42 (assigned to
technician 7) gets the 403 response and the store is untouched. -/
theorem technicianMismatch_forbidden_witness :
    statusUpdateEndpoint otherTechClaims 42 "ready" "" 9 sampleDB =
      (Response.forbidden "Forbidden: You are not assigned to this ticket", sampleDB) :=
  technicianMismatch_forbidden otherTechClaims 42 "ready" "" 9 sampleDB sampleTicket
    (by decide) rfl (by decide)

/-- C3: the role gate runs the inner handler exactly when the token's role
is in the allowed set or is admin, and otherwise answers 403 Forbidden
with the store unchanged; in particular, on a route restricted to
technician and admin a customer token is rejected and an admin token is
accepted. -/
theorem roleMiddleware_authorizes_iff (allowedRoles : List String) (c : Claims)
    (handler : DBState → Response × DBState) (s : DBState) :
    (roleMiddleware allowedRoles (some c) handler s =
      if allowedRoles.contains c.role ∨ c.role = RoleAdmin then handler s
      else (Response.forbidden "Forbidden", s)) ∧
    (c.role = RoleCustomer →
      roleMiddleware [RoleTechnician, RoleAdmin] (some c) handler s =
        (Response.forbidden "Forbidden", s)) ∧
    (c.role = RoleAdmin →
      roleMiddleware [RoleTechnician, RoleAdmin] (some c) handler s = handler s) := by
  refine ⟨?_, ?_, ?_⟩
  · unfold roleMiddleware
    by_cases ha : c.role = RoleAdmin
    · simp [ha, List.contains]
    · have ha2 : (c.role == RoleAdmin) = false := by simp [beq_iff_eq, ha]
      by_cases hm : allowedRoles.contains c.role
      · have : allowedRoles.any (fun role => c.role == role) = true := by
          rw [List.any_eq_true]
          rw [List.contains_eq_any_beq, List.any_eq_true] at hm
          obtain ⟨x, hx, hbx⟩ := hm
          exact ⟨x, hx, hbx⟩
        have hmem : c.role ∈ allowedRoles := by simpa using hm
        simp [this, ha2, hmem, ha]
      · have : allowedRoles.any (fun role => c.role == role) = false := by
          rw [List.any_eq_false]
          rw [List.contains_eq_any_beq] at hm
          rw [Bool.not_eq_true, List.any_eq_false] at hm
          exact hm
        have hmem : c.role ∉ allowedRoles := by simpa using hm
        simp [this, ha2, hmem, ha]
  · intro hc
    unfold roleMiddleware
    simp [hc, RoleCustomer, RoleTechnician, RoleAdmin]
  · intro hc
    unfold roleMiddleware
    simp [hc, RoleAdmin]

/-- C4: a token minted by generateToken with expiry E = issuance time plus
the configured hours is rejected by the auth middleware (cookie cleared,
redirect to login) when presented after E, and accepted when presented
before E, recovering exactly the user's id, email and role at issuance. -/
theorem token_expiry_and_claims (cfg : Config) (user : User) (issuedAt t : Nat) :
    (issuedAt + cfg.jwtExpirationHours * 3600 < t →
      authMiddleware cfg.jwtSecret (some (generateToken cfg user issuedAt)) none t =
        AuthOutcome.redirectLogin true) ∧
    (t < issuedAt + cfg.jwtExpirationHours * 3600 →
      authMiddleware cfg.jwtSecret (some (generateToken cfg user issuedAt)) none t =
        AuthOutcome.authenticated
          { userID := user.id, email := user.email, role := user.role,
            expiresAt := issuedAt + cfg.jwtExpirationHours * 3600,
            issuedAt := issuedAt, issuer := cfg.businessName }) := by
  constructor
  · intro hexp
    have : ¬ t < issuedAt + cfg.jwtExpirationHours * 3600 := by omega
    simp [authMiddleware, parseWithClaims, generateToken, hmacSign, this]
  · intro hfresh
    simp [authMiddleware, parseWithClaims, generateToken, hmacSign, hfresh]

/-- Witness for C3: on the technician/admin route, a customer token is
answered 403 with the store unchanged and an admin token reaches the
handler. -/
theorem roleMiddleware_authorizes_iff_witness :
    roleMiddleware [RoleTechnician, RoleAdmin] (some customerClaims) probeHandler sampleDB =
      (Response.forbidden "Forbidden", sampleDB) ∧
    roleMiddleware [RoleTechnician, RoleAdmin] (some adminClaims) probeHandler sampleDB =
      probeHandler sampleDB :=
  ⟨(roleMiddleware_authorizes_iff [RoleTechnician, RoleAdmin] customerClaims
      probeHandler sampleDB).2.1 rfl,
   (roleMiddleware_authorizes_iff [RoleTechnician, RoleAdmin] adminClaims
      probeHandler sampleDB).2.2 rfl⟩

/-- Sample configuration with a 24-hour token expiry. -/
def sampleConfig : Config :=
  { jwtSecret := "supersecret", jwtExpirationHours := 24,
    businessName := "Bicicletapp", debug := true }

/-- Witness for C4: a token for the sample user issued at instant 0
expires at 86400; it is rejected at instant 90000 and accepted at instant
100 with the original identity claims. -/
theorem token_expiry_and_claims_witness :
    (0 + sampleConfig.jwtExpirationHours * 3600 < 90000 ∧
      authMiddleware sampleConfig.jwtSecret
        (some (generateToken sampleConfig sampleUser 0)) none 90000 =
        AuthOutcome.redirectLogin true) ∧
    (100 < 0 + sampleConfig.jwtExpirationHours * 3600 ∧
      authMiddleware sampleConfig.jwtSecret
        (some (generateToken sampleConfig sampleUser 0)) none 100 =
        AuthOutcome.authenticated
          { userID := sampleUser.id, email := sampleUser.email,
            role := sampleUser.role,
            expiresAt := 0 + sampleConfig.jwtExpirationHours * 3600,
            issuedAt := 0, issuer := sampleConfig.businessName }) :=
  ⟨⟨by decide, (token_expiry_and_claims sampleConfig sampleUser 0 90000).1 (by decide)⟩,
   ⟨by decide, (token_expiry_and_claims sampleConfig sampleUser 0 100).2 (by decide)⟩⟩

/-- Stripping a list prefix that is literally present succeeds with the
remainder. -/
theorem stripMagic_append (p r : List Char) : stripMagic p (p ++ r) = some r := by
  induction p with
  | nil => rfl
  | cons c cs ih => simp [stripMagic, ih]

/-- Splitting at the first dollar of `a ++ '$' :: b` recovers `(a, b)`
when `a` itself is dollar-free. -/
theorem splitAtDollar_append (a b : List Char) (h : '$' ∉ a) :
    splitAtDollar (a ++ '$' :: b) = some (a, b) := by
  induction a with
  | nil => simp [splitAtDollar]
  | cons c cs ih =>
    simp only [List.mem_cons, not_or] at h
    have hc : ¬c = '$' := fun hh => h.1 hh.symm
    simp [splitAtDollar, hc, ih h.2]

/-- Parsing a well-formed hash recovers its salt and digest. -/
theorem bcryptParse_hashPassword (salt password : String) (hsalt : '$' ∉ salt.data) :
    bcryptParse (hashPassword salt password) = some (salt.data, password.data) := by
  unfold bcryptParse hashPassword bcryptKDF
  have hdata : (String.mk (bcryptMagic ++ salt.data ++ '$' :: password.data)).data
      = bcryptMagic ++ (salt.data ++ '$' :: password.data) := by
    simp
  rw [hdata, stripMagic_append]
  exact splitAtDollar_append _ _ hsalt

/-- C6: verifying a password against its own hash succeeds, verifying any
other password against that hash fails, and verification of any malformed
hash string returns false rather than erroring. -/
theorem checkPasswordHash_correct (salt password other : String)
    (hsalt : '$' ∉ salt.data) (hne : other ≠ password) :
    checkPasswordHash password (hashPassword salt password) = true ∧
    checkPasswordHash other (hashPassword salt password) = false ∧
    (∀ h, bcryptParse h = none → checkPasswordHash password h = false) := by
  have hparse := bcryptParse_hashPassword salt password hsalt
  refine ⟨?_, ?_, ?_⟩
  · simp [checkPasswordHash, hparse, bcryptKDF]
  · simp only [checkPasswordHash, hparse, bcryptKDF]
    simp only [decide_eq_false_iff_not]
    intro hd
    exact hne (by cases other; cases password; cases hd; rfl)
  · intro h hp
    simp [checkPasswordHash, hp]

/-- Witness for C6: concrete password, wrong password and malformed hash. -/
theorem checkPasswordHash_correct_witness :
    checkPasswordHash "secret" (hashPassword "s4lt" "secret") = true ∧
    checkPasswordHash "wrong" (hashPassword "s4lt" "secret") = false ∧
    checkPasswordHash "secret" "not-a-hash" = false :=
  ⟨(checkPasswordHash_correct "s4lt" "secret" "wrong" (by decide) (by decide)).1,
   (checkPasswordHash_correct "s4lt" "secret" "wrong" (by decide) (by decide)).2.1,
   (checkPasswordHash_correct "s4lt" "secret" "wrong" (by decide) (by decide)).2.2
     "not-a-hash" (by decide)⟩

/-- Updating one booking's status by id rewrites exactly the found row. -/
theorem find_update_booking (l : List Booking) (bid : Int) (st : String) :
    (l.map (fun b => if b.id == bid then { b with status := st } else b)).find?
        (fun b => b.id == bid) =
      (l.find? (fun b => b.id == bid)).map (fun b => { b with status := st }) := by
  induction l with
  | nil => rfl
  | cons hd tl ih =>
    rw [List.map_cons]
    by_cases h : hd.id = bid
    · have hb : (hd.id == bid) = true := by simp [h]
      have hf : (if hd.id == bid then { hd with status := st } else hd) =
          { hd with status := st } := by simp [hb]
      rw [hf, List.find?_cons_of_pos _ (by simpa using hb),
        List.find?_cons_of_pos _ (by simpa using hb)]
      rfl
    · have hb : (hd.id == bid) = false := by simp [h]
      have hf : (if hd.id == bid then { hd with status := st } else hd) = hd := by
        simp [hb]
      rw [hf, List.find?_cons_of_neg _ (by simp [h]),
        List.find?_cons_of_neg _ (by simp [h]), ih]

/-- C7: successfully creating a ticket from an existing booking advances
that booking's status to confirmed and leaves its other fields unchanged. -/
theorem createTicket_confirms_booking (claims : Claims) (bid : Int)
    (code : String) (png : List Nat) (now : Nat) (s : DBState) (b : Booking)
    (hfound : BookingRepo.GetByID s bid = some b) :
    BookingRepo.GetByID (handleCreateTicket claims bid code png now s).2 bid =
      some { b with status := BookingStatusConfirmed } := by
  have h1 : (handleCreateTicket claims bid code png now s).2.bookings =
      s.bookings.map (fun bb =>
        if bb.id == bid then { bb with status := BookingStatusConfirmed } else bb) := by
    unfold handleCreateTicket
    rw [hfound]
    rfl
  unfold BookingRepo.GetByID
  rw [h1, find_update_booking]
  unfold BookingRepo.GetByID at hfound
  rw [hfound]
  rfl

/-- Witness for C7: creating a ticket from pending sample booking #1
leaves it confirmed with all other fields intact. -/
theorem createTicket_confirms_booking_witness :
    BookingRepo.GetByID (handleCreateTicket techClaims 1 "TRKNEW" [] 11 sampleDB).2 1 =
      some { sampleBooking with status := BookingStatusConfirmed } :=
  createTicket_confirms_booking techClaims 1 "TRKNEW" [] 11 sampleDB sampleBooking
    (by decide)

/-- Fresh ticket record handed to TicketRepo.Create in the C9 scenarios. -/
def sampleNewTicket : Ticket :=
  { id := 0, bookingID := 1, technicianID := 7, trackingCode := "TRKNEW",
    qrCode := [], status := "received", notes := "", createdAt := 0, updatedAt := 0 }

/-- Counterexample to C9 as stated: a concrete successful ticket creation
appends its initial history row with notes "Ticket creado", and no row
with notes "created" exists, so the claimed notes value "created" is
wrong. -/
theorem ticketCreate_notes_counterexample :
    (TicketRepo.Create sampleDB sampleNewTicket 3).2.history.getLast? =
      some { ticketID := 43, status := "received", changedBy := some 7,
             notes := "Ticket creado", createdAt := 3 } ∧
    (TicketRepo.Create sampleDB sampleNewTicket 3).2.history.all
      (fun r => r.notes != "created") = true ∧
    "Ticket creado" ≠ "created" := by decide

/-- C9 (amended): every ticket creation appends exactly one initial
history row with notes "Ticket creado", status equal to the created
ticket's status, and changed-by the creating technician's id, or NULL
when the ticket carries no technician (zero id). -/
theorem ticketCreate_initial_history (s : DBState) (t : Ticket) (now : Nat) :
    (TicketRepo.Create s t now).2.history =
      s.history ++ [({ ticketID := s.nextTicketID, status := t.status,
                       changedBy := if t.technicianID ≠ 0 then some t.technicianID
                                    else none,
                       notes := "Ticket creado", createdAt := now } :
                       TicketStatusHistory)] := by
  unfold TicketRepo.Create TicketRepo.CreateStatusHistory
  by_cases h : t.technicianID = 0
  · simp [h]
  · simp [h]

/-- Counterexample to C8 as stated: an admin-initiated status update with
the arbitrary string "banana" succeeds and stores "banana", which is
outside the closed six-token enumeration. -/
theorem adminArbitraryStatus_counterexample :
    (statusUpdateEndpoint adminClaims 42 "banana" "" 5 sampleDB).1 =
      Response.redirectTicket 42 none ∧
    TicketRepo.GetByID (statusUpdateEndpoint adminClaims 42 "banana" "" 5 sampleDB).2 42 =
      some { sampleTicket with status := "banana", updatedAt := 5 } ∧
    ticketStatusTokens.contains "banana" = false := by decide

/-- Targets of the §4.3 table all lie in the closed enumeration. -/
theorem specTransitionAllowed_target_mem (cur target : String)
    (h : specTransitionAllowed cur target = true) : target ∈ ticketStatusTokens := by
  unfold specTransitionAllowed at h
  simp only [Bool.or_eq_true, Bool.and_eq_true, beq_iff_eq] at h
  simp only [ticketStatusTokens, TicketStatusReceived, TicketStatusDiagnosing,
    TicketStatusInProgress, TicketStatusWaitingParts, TicketStatusReady,
    TicketStatusDelivered, List.mem_cons, List.not_mem_nil, or_false]
  tauto

/-- C8 (amended): a technician-initiated status update that succeeds on a
ticket whose current status lies in the six-token enumeration stores a
status that also lies in the enumeration (admin-initiated updates are not
validated, see the counterexample). -/
theorem statusUpdate_technician_preserves_enum (claims : Claims) (id : Int)
    (status notes : String) (now : Nat) (s : DBState) (tk : Ticket)
    (hfound : TicketRepo.GetByID s id = some tk)
    (hrole : claims.role = RoleTechnician)
    (hcur : tk.status ∈ ticketStatusTokens)
    (hsucc : (statusUpdateEndpoint claims id status notes now s).1 =
      Response.redirectTicket id none) :
    status ∈ ticketStatusTokens := by
  have h := (statusUpdate_success_iff claims id status notes now s tk hfound).1.mp hsucc
  rcases h with hadm | ⟨-, -, htab | hsame⟩
  · exact absurd (hrole ▸ hadm) (by decide)
  · exact specTransitionAllowed_target_mem tk.status status htab
  · exact hsame ▸ hcur

/-- Witness for amended C8: technician 7 moving sample ticket #42 from
diagnosing to ready stores a status inside the enumeration. -/
theorem statusUpdate_technician_preserves_enum_witness :
    "ready" ∈ ticketStatusTokens :=
  statusUpdate_technician_preserves_enum techClaims 42 "ready" "" 9 sampleDB
    sampleTicket (by decide) rfl (by decide) (by decide)

/-- C10: every failed login — unknown email or wrong password — produces
the identical invalid-credentials login page with the store unchanged and
no cookie set, so the response does not reveal whether the email is
registered. -/
theorem login_failure_uniform (cfg : Config) (email password : String)
    (now : Nat) (s : DBState)
    (hfail : UserRepo.GetByEmail s email = none ∨
      ∃ u, UserRepo.GetByEmail s email = some u ∧
        checkPasswordHash password u.passwordHash = false) :
    handleLogin cfg email password now s = (invalidCredentialsPage, s) := by
  unfold handleLogin
  rcases hfail with h | ⟨u, hu, hchk⟩
  · rw [h]
  · rw [hu]
    simp [hchk]

/-- Witness for C10: a wrong password for the registered sample user
yields exactly the invalid-credentials page and no state change. -/
theorem login_failure_uniform_witness :
    handleLogin sampleConfig "ana@example.com" "wrongpw" 0 sampleDB =
      (invalidCredentialsPage, sampleDB) :=
  login_failure_uniform sampleConfig "ana@example.com" "wrongpw" 0 sampleDB
    (Or.inr ⟨sampleUser, by decide, by decide⟩)

end Bicicletapp
